import Mathlib

/-!
Verification of the response-selection subsystem of a Telegram chat bot
(`ai_service.py`): the remote-completion client with endpoint rotation and
the rule-based fallback response selector.

The Python code is shallowly embedded as executable Lean definitions.
String primitives used by the code (`in`, `lower()`, `strip()`,
`replace(p, "")`, slicing `[:n]`) are modelled over `List Char` with
structural recursion so that every definition reduces in the kernel.
`lower` and `strip` implement the ASCII behaviour of the Python originals,
which coincides with Python on all message text considered here.

Nondeterminism of the outside world is made explicit: the outcome of the
HTTP POST is an `HttpOutcome` argument, and the pseudo-random pick of
`random.choice` over a candidate list is an arbitrary index argument
reduced modulo the list length (every list element is a possible pick).
-/

/-- One non-overlapping left-to-right removal pass, the semantics of
Python's `s.replace(pat, "")` for a non-empty `pat`.  The fuel argument is
instantiated with the length of the scanned list, which bounds the number
of scan steps. -/
def removeAllAux (pat : List Char) : Nat → List Char → List Char
  | _, [] => []
  | 0, l => l
  | fuel+1, c :: rest =>
      if pat.isPrefixOf (c :: rest) then
        removeAllAux pat fuel (List.drop (pat.length - 1) rest)
      else
        c :: removeAllAux pat fuel rest

/-- Python's `s.replace(pat, "")`.  With an empty pattern Python inserts the
empty replacement between characters, which leaves `s` unchanged. -/
def strRemoveAll (s pat : String) : String :=
  if pat.toList.isEmpty then s
  else String.mk (removeAllAux pat.toList s.toList.length s.toList)

/-- Python's substring test `pat in s` on character lists (true for the
empty pattern, as in Python). -/
def containsSub (pat : List Char) : List Char → Bool
  | [] => pat.isEmpty
  | c :: rest => pat.isPrefixOf (c :: rest) || containsSub pat rest

/-- Python's `pat in s` on strings. -/
def substr (pat s : String) : Bool := containsSub pat.toList s.toList

/-- Python's `s.lower()` (ASCII case folding). -/
def lower (s : String) : String := String.mk (s.toList.map Char.toLower)

/-- Python's slice `s[:n]`. -/
def strTake (s : String) (n : Nat) : String := String.mk (s.toList.take n)

/-- Python's `s.strip()`: whitespace removed from both ends. -/
def strStrip (s : String) : String :=
  String.mk (((s.toList.dropWhile Char.isWhitespace).reverse.dropWhile
    Char.isWhitespace).reverse)

/-- The endpoint pool from `AIService.__init__` (`self.endpoints`). -/
def endpoints : List String :=
  ["https://api-inference.huggingface.co/models/microsoft/DialoGPT-medium",
   "https://api-inference.huggingface.co/models/facebook/blenderbot-400M-distill",
   "https://api-inference.huggingface.co/models/microsoft/DialoGPT-small"]

/-- The mutable state of an `AIService` instance: the rotating endpoint
cursor (`self.current_endpoint`) and the per-user conversation log
(`self.conversation_history`), a dict modelled as an association list whose
keys are unique in every state reachable from a real dict. -/
structure AIService where
  current_endpoint : Nat
  conversation_history : List (String × List String)
deriving DecidableEq

/-- The state built by `AIService.__init__`. -/
def initialState : AIService := { current_endpoint := 0, conversation_history := [] }

/-- Shape of the `generated_text` field inside a decoded JSON body: present
with a string value, present with a JSON-array value, present with any
other non-string value, or absent.  The split of the non-string values
matters in the direct-object shape: the slice expression
`result["generated_text"][:200]` succeeds on a JSON array (decoded to a
Python list) and returns the sliced list, while it raises `TypeError` on
numbers, booleans, null and objects, which the surrounding `except` turns
into `None`.  No later code inspects the array's elements - only its slice
and its truthiness - so an array is represented by its length. -/
inductive JField where
  | strVal (s : String)
  | arrVal (n : Nat)
  | nonStr
  | absent
deriving DecidableEq

/-- Shape of the decoded JSON body of a 200 response as discriminated by the
code: a non-empty list whose first element has the given `generated_text`
shape, an object with the given field shape, an empty list, or any other
JSON value. -/
inductive JsonBody where
  | listWith (f : JField)
  | obj (f : JField)
  | emptyList
  | other
deriving DecidableEq

/-- Outcome of the `requests.post` call: a raised exception (timeout,
transport error, or a body that fails JSON decoding), or a completed
response with a status code and decoded body. -/
inductive HttpOutcome where
  | exception
  | response (status : Nat) (body : JsonBody)
deriving DecidableEq

/-- Lines 65-76 of `ai_service.py`: when the selected endpoint is a DialoGPT
one, `conversation = self.conversation_history.get(user_id, [])` followed by
`conversation.append(message)`.  `dict.get` hands back the stored list
object when the key is present - so the append mutates the stored entry -
and a fresh list otherwise, which is never stored back into the dict. -/
def record_message (st : AIService) (user_id message : String) : AIService :=
  let endpoint := endpoints.getD st.current_endpoint ""
  let appended := st.conversation_history.map
    (fun p => if p.1 = user_id then (p.1, p.2 ++ [message]) else p)
  if substr "DialoGPT" endpoint then
    { st with conversation_history := appended }
  else st

/-- Line 112 of `ai_service.py`:
`self.current_endpoint = (self.current_endpoint + 1) % len(self.endpoints)`. -/
def advance_endpoint (st : AIService) : AIService :=
  { st with current_endpoint := (st.current_endpoint + 1) % endpoints.length }

/-- Lines 104-106 of `ai_service.py`: if the original message occurs in the
generated text, remove every occurrence and strip whitespace. -/
def cleanText (message generated : String) : String :=
  if substr message generated then strStrip (strRemoveAll generated message)
  else generated

/-- A Python value that `_try_huggingface_api` can return besides `None`:
a string (from the `isinstance`-checked list branch or a string-valued
direct-object field), or a Python list - line 109 returns
`result["generated_text"][:200]` unconditionally, and for a JSON-array
field that slice is a list, not a string.  The list is represented by its
length, which is all that its truthiness and the slice depend on. -/
inductive PyReturn where
  | str (s : String)
  | pylist (n : Nat)
deriving DecidableEq

/-- Python truthiness of a returned value: a string is truthy iff
non-empty, a list iff non-empty. -/
def truthy : PyReturn → Bool
  | PyReturn.str s => !(s == "")
  | PyReturn.pylist n => !(n == 0)

/-- Discriminates the string results from the Python-list results. -/
def isStr : PyReturn → Bool
  | PyReturn.str _ => true
  | PyReturn.pylist _ => false

/-- `AIService._try_huggingface_api` (lines 54-117 of `ai_service.py`).
The whole body runs inside `try/except`, the `except` returning `None`.
The per-user log update happens before the request is issued; the cursor is
advanced only by the fall-through at line 111-112, reached when the
response completed but no `return` inside the 200-branch fired.  In the
list-of-objects branch a non-string `generated_text` (array or otherwise)
fails the `isinstance` check and falls through; in the direct-object
branch an array value is sliced and returned as a list, while the other
non-string values make the slice raise `TypeError`, caught by the
`except`. -/
def try_huggingface_api (st : AIService) (message user_id : String)
    (oc : HttpOutcome) : Option PyReturn × AIService :=
  let st1 := record_message st user_id message
  match oc with
  | HttpOutcome.exception => (none, st1)
  | HttpOutcome.response status body =>
    if status = 200 then
      match body with
      | JsonBody.listWith (JField.strVal s) =>
        let g := cleanText message s
        if g = "" then (none, st1)
        else (some (PyReturn.str (strTake g 200)), st1)
      | JsonBody.listWith (JField.arrVal _) => (none, advance_endpoint st1)
      | JsonBody.listWith JField.nonStr => (none, advance_endpoint st1)
      | JsonBody.listWith JField.absent => (none, advance_endpoint st1)
      | JsonBody.obj (JField.strVal s) => (some (PyReturn.str (strTake s 200)), st1)
      | JsonBody.obj (JField.arrVal n) => (some (PyReturn.pylist (min n 200)), st1)
      | JsonBody.obj JField.nonStr => (none, st1)
      | JsonBody.obj JField.absent => (none, advance_endpoint st1)
      | JsonBody.emptyList => (none, advance_endpoint st1)
      | JsonBody.other => (none, advance_endpoint st1)
    else (none, advance_endpoint st1)

/-- Group greeting replies (lines 137-143). -/
def group_greeting_responses : List String :=
  ["Hey everyone! How's it going?",
   "Hello there! Great to see some activity in the group!",
   "Hi! Hope everyone's having a good day!",
   "Greetings! What's the discussion about today?",
   "Hey! Good to see you all here!"]

/-- Group question replies (lines 147-153). -/
def group_question_responses : List String :=
  ["That's an interesting question! Anyone else have thoughts on this?",
   "Good question! I'd love to hear what others think too.",
   "Hmm, that's worth discussing. What do you all think?",
   "Interesting point! Does anyone have experience with this?",
   "Great question for the group! Let's see what everyone thinks."]

/-- Group thanks replies (lines 157-163). -/
def group_thanks_responses : List String :=
  ["You're welcome! Happy to help the group!",
   "No problem! That's what this community is for!",
   "Glad I could contribute to the discussion!",
   "Anytime! Love seeing helpful conversations here!",
   "You're very welcome! Keep the great discussions going!"]

/-- Group bot-identity replies (lines 167-173). -/
def group_bot_responses : List String :=
  ["Yes, I'm your friendly group bot! Here to help keep conversations interesting!",
   "That's me! I'm here to assist and engage with the group!",
   "Correct! I'm an AI bot designed to make group chats more interactive!",
   "Indeed! I'm here to contribute to your group discussions!",
   "Yep! Your resident bot, ready to chat and help out!"]

/-- Group help replies (lines 177-183). -/
def group_help_responses : List String :=
  ["I'm here to help! What can I assist the group with?",
   "Happy to help out! What do you need assistance with?",
   "Sure thing! How can I support the group today?",
   "Of course! I'm here to make things easier for everyone!",
   "Absolutely! What kind of help are you looking for?"]

/-- Group default replies (lines 187-195); the first embeds
`message_lower[:30]`. -/
def group_default_responses (message_lower : String) : List String :=
  ["Interesting point about '" ++ strTake message_lower 30 ++
     "...' - what does everyone else think?",
   "That's a cool topic! Anyone else want to share their thoughts?",
   "Thanks for sharing! I find group discussions really engaging.",
   "Good point! This group always has such thoughtful conversations.",
   "I appreciate you bringing this up - it's great to see active discussions!",
   "That's worth discussing further! What are your experiences with this?",
   "Interesting perspective! I'd love to hear more viewpoints from the group."]

/-- Private greeting replies (lines 202-208). -/
def private_greeting_responses : List String :=
  ["Hello! Nice to chat with you personally. How can I help?",
   "Hi there! Great to have a one-on-one conversation. What's on your mind?",
   "Hey! I'm all ears. What would you like to talk about?",
   "Good to see you! How has your day been going?",
   "Hello! I'm here and ready to chat. What's new with you?"]

/-- Private question replies (lines 212-218); the first embeds
`message_lower[:30]`. -/
def private_question_responses (message_lower : String) : List String :=
  ["That's a thoughtful question about '" ++ strTake message_lower 30 ++
     "...' Let me think about that!",
   "You've got me curious now! That's definitely something worth exploring.",
   "Great question! I find these kinds of topics really engaging.",
   "That's an interesting way to look at it. What made you think of that?",
   "I love questions like this! They really make you think, don't they?"]

/-- Private thanks replies (lines 222-228). -/
def private_thanks_responses : List String :=
  ["You're absolutely welcome! I really enjoy our conversations.",
   "My pleasure! I'm always happy to chat with you.",
   "Don't mention it! These discussions are great.",
   "Anytime! I appreciate you taking the time to chat.",
   "You're very welcome! Feel free to reach out whenever you want to talk."]

/-- Private bot-identity replies (lines 232-238). -/
def private_bot_responses : List String :=
  ["Yes, I'm an AI bot, but I try to make our conversations feel natural and engaging!",
   "That's right! I'm here to be your personal chat companion whenever you need one.",
   "Indeed I am! But I like to think of myself as a friendly conversation partner.",
   "Correct! I'm designed to have meaningful conversations just like this one.",
   "Yes, but don't let that stop us from having great chats together!"]

/-- Private help replies (lines 242-248). -/
def private_help_responses : List String :=
  ["I'd be delighted to help! What's on your mind?",
   "Absolutely! I'm here to assist however I can. What do you need?",
   "Of course! I love being helpful. How can I support you today?",
   "I'm all yours! What kind of assistance are you looking for?",
   "Happy to help! Just let me know what you'd like to discuss or work on."]

/-- Private default replies (lines 252-260); the first embeds
`message_lower[:30]`. -/
def private_default_responses (message_lower : String) : List String :=
  ["That's really interesting what you said about '" ++ strTake message_lower 30 ++
     "...' Tell me more!",
   "I find that fascinating! What's your experience been with that?",
   "You've got me thinking now. That's a really good point you make.",
   "I appreciate you sharing that with me. What led you to that conclusion?",
   "That's a unique perspective! I'd love to hear more of your thoughts on it.",
   "Thanks for bringing that up - it's given me something new to consider!",
   "I really enjoy these kinds of conversations with you. What else is on your mind?"]

/-- The greeting keywords (line 136 and line 201). -/
def greeting_keywords : List String :=
  ["hello", "hi", "hey", "good morning", "good afternoon", "good evening"]

/-- The thanks keywords (line 156 and line 221). -/
def thanks_keywords : List String := ["thank", "thanks", "appreciate"]

/-- The bot-identity keywords (line 166 and line 231). -/
def bot_keywords : List String := ["bot", "robot", "ai"]

/-- The help keywords (line 176 and line 241). -/
def help_keywords : List String := ["help", "assist", "support"]

/-- `AIService._get_group_responses` (lines 132-195): first-match-wins
classification of the lowercased message. -/
def get_group_responses (message_lower : String) : List String :=
  if greeting_keywords.any (fun g => substr g message_lower) then
    group_greeting_responses
  else if substr "?" message_lower then
    group_question_responses
  else if thanks_keywords.any (fun w => substr w message_lower) then
    group_thanks_responses
  else if bot_keywords.any (fun w => substr w message_lower) then
    group_bot_responses
  else if help_keywords.any (fun w => substr w message_lower) then
    group_help_responses
  else
    group_default_responses message_lower

/-- `AIService._get_private_responses` (lines 197-260): first-match-wins
classification of the lowercased message. -/
def get_private_responses (message_lower : String) : List String :=
  if greeting_keywords.any (fun g => substr g message_lower) then
    private_greeting_responses
  else if substr "?" message_lower then
    private_question_responses message_lower
  else if thanks_keywords.any (fun w => substr w message_lower) then
    private_thanks_responses
  else if bot_keywords.any (fun w => substr w message_lower) then
    private_bot_responses
  else if help_keywords.any (fun w => substr w message_lower) then
    private_help_responses
  else
    private_default_responses message_lower

/-- The candidate table `AIService._generate_smart_fallback` draws from
(lines 119-127): group tables for `chat_type` in `["group", "supergroup"]`,
private tables otherwise, computed from the lowercased message. -/
def fallback_table (message chat_type : String) : List String :=
  if chat_type = "group" ∨ chat_type = "supergroup" then
    get_group_responses (lower message)
  else
    get_private_responses (lower message)

/-- `AIService._generate_smart_fallback` (lines 119-130).  `random.choice`
is modelled by an arbitrary index `k` taken modulo the table length: the
chosen reply is always a table member, and every member is reachable. -/
def generate_smart_fallback (message chat_type : String) (k : Nat) : String :=
  let responses := fallback_table message chat_type
  responses.getD (k % responses.length) ""

/-- `AIService.generate_response` (lines 28-52): the remote attempt's
result is returned as-is when truthy under Python truthiness (line 44
`if response:`) - which passes a non-empty list through unchanged -
while `None` or a falsy value falls back to `_generate_smart_fallback`,
as does any raised exception. -/
def generate_response (st : AIService) (message user_id chat_type : String)
    (oc : HttpOutcome) (k : Nat) : PyReturn × AIService :=
  let p := try_huggingface_api st message user_id oc
  match p.1 with
  | some v => if truthy v then (v, p.2)
              else (PyReturn.str (generate_smart_fallback message chat_type k), p.2)
  | none => (PyReturn.str (generate_smart_fallback message chat_type k), p.2)

/-- `AIService.clear_conversation_history` (lines 262-265): delete the
user's entry when present. -/
def clear_conversation_history (st : AIService) (user_id : String) : AIService :=
  { st with conversation_history :=
      st.conversation_history.eraseP (fun p => p.1 == user_id) }

/-- The dict returned by `AIService.get_conversation_stats` (lines 267-273). -/
structure ConversationStats where
  active_conversations : Nat
  current_endpoint : String
  total_endpoints : Nat
deriving DecidableEq

/-- `AIService.get_conversation_stats` (lines 267-273). -/
def get_conversation_stats (st : AIService) : ConversationStats :=
  { active_conversations := st.conversation_history.length,
    current_endpoint := endpoints.getD st.current_endpoint "",
    total_endpoints := endpoints.length }

/-- A public operation on the service, with the environment inputs
(HTTP outcome, random index) made explicit. -/
inductive Op where
  | gen (message user_id chat_type : String) (oc : HttpOutcome) (k : Nat)
  | clear (user_id : String)
  | stats
deriving DecidableEq

/-- State transition of one public operation (`get_conversation_stats`
reads but does not write). -/
def step (st : AIService) : Op → AIService
  | Op.gen m u ct oc k => (generate_response st m u ct oc k).2
  | Op.clear u => clear_conversation_history st u
  | Op.stats => st

/-- Run a sequence of public operations. -/
def runOps (st : AIService) : List Op → AIService
  | [] => st
  | op :: rest => runOps (step st op) rest

/-- N consecutive calls to `_try_huggingface_api` that all complete with
the same non-200 status. -/
def iterate_failed_calls (message user_id : String) (status : Nat)
    (body : JsonBody) : Nat → AIService → AIService
  | 0, st => st
  | n+1, st =>
      iterate_failed_calls message user_id status body n
        (try_huggingface_api st message user_id
          (HttpOutcome.response status body)).2

/-! ## Helper lemmas -/

/-- A string starting with a non-empty literal is non-empty. -/
lemma append3_ne_empty (a b c : String) (ha : a.data ≠ []) : a ++ b ++ c ≠ "" := by
  intro h
  have h2 := congrArg String.data h
  rw [String.data_append, String.data_append] at h2
  exact ha (List.append_eq_nil.mp ((List.append_eq_nil.mp h2).1)).1

/-- An indexing-modulo-length pick is a member of a non-empty list. -/
lemma getD_mod_mem (l : List String) (k : Nat) (h : l ≠ []) :
    l.getD (k % l.length) "" ∈ l := by
  have hl : 0 < l.length := List.length_pos.mpr h
  have hk : k % l.length < l.length := Nat.mod_lt _ hl
  rw [List.getD_eq_getElem?_getD, List.getElem?_eq_getElem hk]
  exact List.getElem_mem hk

lemma mem_group_responses_ne_empty (ml : String) :
    ∀ r ∈ get_group_responses ml, r ≠ "" := by
  intro r hr
  unfold get_group_responses at hr
  split_ifs at hr <;>
    fin_cases hr <;>
      first
        | decide
        | exact append3_ne_empty _ _ _ (by decide)

lemma mem_private_responses_ne_empty (ml : String) :
    ∀ r ∈ get_private_responses ml, r ≠ "" := by
  intro r hr
  unfold get_private_responses at hr
  split_ifs at hr <;>
    fin_cases hr <;>
      first
        | decide
        | exact append3_ne_empty _ _ _ (by decide)

lemma get_group_responses_ne_nil (ml : String) : get_group_responses ml ≠ [] := by
  unfold get_group_responses
  split_ifs <;>
    simp [group_greeting_responses, group_question_responses, group_thanks_responses,
      group_bot_responses, group_help_responses, group_default_responses]

lemma get_private_responses_ne_nil (ml : String) : get_private_responses ml ≠ [] := by
  unfold get_private_responses
  split_ifs <;>
    simp [private_greeting_responses, private_question_responses, private_thanks_responses,
      private_bot_responses, private_help_responses, private_default_responses]

lemma fallback_table_ne_nil (m ct : String) : fallback_table m ct ≠ [] := by
  unfold fallback_table
  split_ifs
  · exact get_group_responses_ne_nil _
  · exact get_private_responses_ne_nil _

lemma mem_fallback_table_ne_empty (m ct : String) :
    ∀ r ∈ fallback_table m ct, r ≠ "" := by
  intro r hr
  unfold fallback_table at hr
  split_ifs at hr
  · exact mem_group_responses_ne_empty _ r hr
  · exact mem_private_responses_ne_empty _ r hr

lemma fallback_mem (m ct : String) (k : Nat) :
    generate_smart_fallback m ct k ∈ fallback_table m ct := by
  unfold generate_smart_fallback
  exact getD_mod_mem _ k (fallback_table_ne_nil m ct)

lemma fallback_ne_empty (m ct : String) (k : Nat) :
    generate_smart_fallback m ct k ≠ "" :=
  mem_fallback_table_ne_empty m ct _ (fallback_mem m ct k)

lemma record_message_cursor (st : AIService) (u m : String) :
    (record_message st u m).current_endpoint = st.current_endpoint := by
  simp only [record_message]
  split <;> rfl

lemma try_non200 (st : AIService) (m u : String) (status : Nat) (b : JsonBody)
    (hs : status ≠ 200) :
    try_huggingface_api st m u (HttpOutcome.response status b)
      = (none, advance_endpoint (record_message st u m)) := by
  unfold try_huggingface_api
  simp [hs]

lemma try_non200_cursor (st : AIService) (m u : String) (status : Nat)
    (b : JsonBody) (hs : status ≠ 200) :
    (try_huggingface_api st m u (HttpOutcome.response status b)).2.current_endpoint
      = (st.current_endpoint + 1) % endpoints.length := by
  rw [try_non200 st m u status b hs]
  show (advance_endpoint (record_message st u m)).current_endpoint = _
  unfold advance_endpoint
  rw [record_message_cursor]

lemma iterate_failed_cursor (m u : String) (status : Nat) (b : JsonBody)
    (hs : status ≠ 200) :
    ∀ (n : Nat) (st : AIService), st.current_endpoint < endpoints.length →
      (iterate_failed_calls m u status b n st).current_endpoint
        = (st.current_endpoint + n) % endpoints.length := by
  intro n
  induction n with
  | zero =>
    intro st hc
    unfold iterate_failed_calls
    simp [Nat.mod_eq_of_lt hc]
  | succ n ih =>
    intro st hc
    show (iterate_failed_calls m u status b n _).current_endpoint = _
    rw [ih _ (by rw [try_non200_cursor st m u status b hs]; exact Nat.mod_lt _ (by decide))]
    rw [try_non200_cursor st m u status b hs]
    rw [Nat.mod_add_mod]
    congr 1
    omega

lemma advance_endpoint_history (st : AIService) :
    (advance_endpoint st).conversation_history = st.conversation_history := rfl

lemma try_history (st : AIService) (m u : String) (oc : HttpOutcome) :
    (try_huggingface_api st m u oc).2.conversation_history
      = (record_message st u m).conversation_history := by
  rcases oc with _ | ⟨status, body⟩
  · rfl
  · by_cases hs : status = 200
    · subst hs
      rcases body with f | f | _ | _
      · rcases f with s | _ | _ | _
        · by_cases hg : cleanText m s = "" <;>
            simp [try_huggingface_api, hg, advance_endpoint]
        · rfl
        · rfl
        · rfl
      · rcases f with s | _ | _ | _ <;> rfl
      · rfl
      · rfl
    · rw [try_non200 st m u status body hs]
      rfl

lemma record_message_empty (st : AIService) (u m : String)
    (h : st.conversation_history = []) :
    (record_message st u m).conversation_history = [] := by
  simp only [record_message]
  split <;> simp [h]

lemma generate_response_state (st : AIService) (m u ct : String)
    (oc : HttpOutcome) (k : Nat) :
    (generate_response st m u ct oc k).2 = (try_huggingface_api st m u oc).2 := by
  unfold generate_response
  rcases h : (try_huggingface_api st m u oc).1 with _ | s
  · simp [h]
  · simp only [h]
    split <;> rfl

lemma step_history_empty (st : AIService) (op : Op)
    (h : st.conversation_history = []) :
    (step st op).conversation_history = [] := by
  rcases op with ⟨m, u, ct, oc, k⟩ | u | _
  · show (generate_response st m u ct oc k).2.conversation_history = []
    rw [generate_response_state, try_history]
    exact record_message_empty st u m h
  · show (clear_conversation_history st u).conversation_history = []
    simp [clear_conversation_history, h]
  · exact h

lemma runOps_history_empty :
    ∀ (ops : List Op) (st : AIService), st.conversation_history = [] →
      (runOps st ops).conversation_history = [] := by
  intro ops
  induction ops with
  | nil => intro st h; exact h
  | cons op rest ih =>
    intro st h
    exact ih _ (step_history_empty st op h)

/-! ## Claims -/

lemma generate_response_result (st : AIService) (m u ct : String)
    (oc : HttpOutcome) (k : Nat) :
    (generate_response st m u ct oc k).1 =
      match (try_huggingface_api st m u oc).1 with
      | some v => if truthy v then v
                  else PyReturn.str (generate_smart_fallback m ct k)
      | none => PyReturn.str (generate_smart_fallback m ct k) := by
  unfold generate_response
  rcases h : (try_huggingface_api st m u oc).1 with _ | v
  · simp [h]
  · simp only [h]
    split <;> rfl

lemma try_pylist_source (st : AIService) (m u : String) (oc : HttpOutcome)
    (n : Nat)
    (h : (try_huggingface_api st m u oc).1 = some (PyReturn.pylist n)) :
    ∃ len, oc = HttpOutcome.response 200 (JsonBody.obj (JField.arrVal len)) := by
  rcases oc with _ | ⟨status, body⟩
  · exact absurd h (by simp [try_huggingface_api])
  · by_cases hs : status = 200
    · subst hs
      rcases body with f | f | _ | _
      · rcases f with s | _ | _ | _
        · by_cases hg : cleanText m s = "" <;>
            simp [try_huggingface_api, hg] at h
        · simp [try_huggingface_api] at h
        · simp [try_huggingface_api] at h
        · simp [try_huggingface_api] at h
      · rcases f with s | len | _ | _
        · simp [try_huggingface_api] at h
        · exact ⟨len, rfl⟩
        · simp [try_huggingface_api] at h
        · simp [try_huggingface_api] at h
      · simp [try_huggingface_api] at h
      · simp [try_huggingface_api] at h
    · rw [try_non200 st m u status body hs] at h
      simp at h

/-- C1, counterexample: for an HTTP-200 direct-object response whose
`generated_text` is a non-empty JSON array, line 109's slice succeeds and
the truthy sliced list is returned through line 44's `if response:`, so
`generate_response` returns a non-string Python list - not a non-empty
string as the claim states. -/
theorem C1_counterexample :
    (generate_response initialState "hello" "u1" "private"
        (HttpOutcome.response 200 (JsonBody.obj (JField.arrVal 1))) 0).1
      = PyReturn.pylist 1
    ∧ isStr (generate_response initialState "hello" "u1" "private"
        (HttpOutcome.response 200 (JsonBody.obj (JField.arrVal 1))) 0).1 = false
    ∧ truthy (generate_response initialState "hello" "u1" "private"
        (HttpOutcome.response 200 (JsonBody.obj (JField.arrVal 1))) 0).1 = true := by
  decide

/-- C1, amended: `generate_response` is total (never raises) and always
returns a truthy value: the remote client's truthy result when there is
one, otherwise the rule-based fallback pick, which is always drawn from
the non-empty candidate table for the message and chat context (so it is
a non-empty string).  The returned value is a string in every case except
when the outcome is an HTTP-200 direct-object response carrying a
JSON-array `generated_text`, whose sliced list is passed through. -/
theorem C1_amended_truthy_response (st : AIService) (m u ct : String)
    (oc : HttpOutcome) (k : Nat) :
    truthy (generate_response st m u ct oc k).1 = true
    ∧ ((∃ v, (try_huggingface_api st m u oc).1 = some v ∧ truthy v = true
          ∧ (generate_response st m u ct oc k).1 = v)
       ∨ (generate_response st m u ct oc k).1
           = PyReturn.str (generate_smart_fallback m ct k))
    ∧ (isStr (generate_response st m u ct oc k).1 = true
       ∨ ∃ n, oc = HttpOutcome.response 200 (JsonBody.obj (JField.arrVal n)))
    ∧ generate_smart_fallback m ct k ∈ fallback_table m ct := by
  have hfb := fallback_ne_empty m ct k
  have hmem := fallback_mem m ct k
  have hr := generate_response_result st m u ct oc k
  have hfbt : truthy (PyReturn.str (generate_smart_fallback m ct k)) = true := by
    simp [truthy, hfb]
  rcases h : (try_huggingface_api st m u oc).1 with _ | v
  · rw [h] at hr
    dsimp only at hr
    refine ⟨?_, Or.inr hr, Or.inl ?_, hmem⟩
    · rw [hr]
      exact hfbt
    · rw [hr]
      rfl
  · rw [h] at hr
    dsimp only at hr
    by_cases hv : truthy v = true
    · rw [if_pos hv] at hr
      refine ⟨?_, Or.inl ⟨v, rfl, hv, hr⟩, ?_, hmem⟩
      · rw [hr]
        exact hv
      · rcases v with s | n
        · exact Or.inl (by rw [hr]; rfl)
        · exact Or.inr (try_pylist_source st m u oc n h)
    · rw [if_neg hv] at hr
      refine ⟨?_, Or.inr hr, Or.inl ?_, hmem⟩
      · rw [hr]
        exact hfbt
      · rw [hr]
        rfl

/-- C2, counterexample: an attempt that ends in a deadline expiry or
transport error (a raised exception) returns no result but leaves the
endpoint cursor where it was - it does not advance it by one as the claim
states (from cursor 0 it would have to reach `(0 + 1) % 3 = 1`). -/
theorem C2_counterexample :
    (try_huggingface_api initialState "hello" "u1" HttpOutcome.exception).1 = none
    ∧ (try_huggingface_api initialState "hello" "u1"
        HttpOutcome.exception).2.current_endpoint = 0
    ∧ (initialState.current_endpoint + 1) % endpoints.length = 1 := by
  decide

/-- C2, amended: a completed response with a non-200 status returns no
result and advances the cursor by exactly one modulo the pool size, so N
consecutive such failures from cursor c end at `(c + N) % poolSize`; an
attempt that ends in an exception (deadline expiry or transport error)
returns no result with the cursor unchanged. -/
theorem C2_amended_rotation (st : AIService) (m u : String) (status : Nat)
    (b : JsonBody) (hs : status ≠ 200)
    (hc : st.current_endpoint < endpoints.length) :
    (try_huggingface_api st m u (HttpOutcome.response status b)).1 = none
    ∧ (try_huggingface_api st m u (HttpOutcome.response status b)).2.current_endpoint
        = (st.current_endpoint + 1) % endpoints.length
    ∧ (∀ n, (iterate_failed_calls m u status b n st).current_endpoint
        = (st.current_endpoint + n) % endpoints.length)
    ∧ (try_huggingface_api st m u HttpOutcome.exception).1 = none
    ∧ (try_huggingface_api st m u HttpOutcome.exception).2.current_endpoint
        = st.current_endpoint := by
  refine ⟨?_, try_non200_cursor st m u status b hs,
    fun n => iterate_failed_cursor m u status b hs n st hc, rfl, ?_⟩
  · rw [try_non200 st m u status b hs]
  · show (record_message st u m).current_endpoint = st.current_endpoint
    exact record_message_cursor st u m

/-- C2, witness: pool size 3, cursor 0, four consecutive non-200 failures
end with the cursor at `(0 + 4) % 3 = 1`, and a single non-200 failure
advances it to 1. -/
theorem C2_witness :
    ((500 : Nat) ≠ 200 ∧ initialState.current_endpoint < endpoints.length)
    ∧ (iterate_failed_calls "hello" "u1" 500 JsonBody.other 4
        initialState).current_endpoint
        = (initialState.current_endpoint + 4) % endpoints.length
    ∧ (try_huggingface_api initialState "hello" "u1"
        (HttpOutcome.response 500 JsonBody.other)).2.current_endpoint
        = (initialState.current_endpoint + 1) % endpoints.length :=
  ⟨⟨by decide, by decide⟩,
   (C2_amended_rotation initialState "hello" "u1" 500 JsonBody.other
      (by decide) (by decide)).2.2.1 4,
   (C2_amended_rotation initialState "hello" "u1" 500 JsonBody.other
      (by decide) (by decide)).2.1⟩

/-- C4: evaluation at the failing input (a fresh service, user `u1`
sending a first message `hello` while the cursor points at a DialoGPT
endpoint): after the call - whether it raises or succeeds - the
`ConversationLog` still has no entry for `u1`; the appended list built via
`dict.get(user_id, [])` is never stored back into the mapping. -/
theorem C4_code_behavior :
    (try_huggingface_api initialState "hello" "u1"
        HttpOutcome.exception).2.conversation_history = []
    ∧ (try_huggingface_api initialState "hello" "u1"
        (HttpOutcome.response 200
          (JsonBody.obj (JField.strVal "nice to meet you")))).2.conversation_history = []
    ∧ List.lookup "u1"
        (try_huggingface_api initialState "hello" "u1"
          HttpOutcome.exception).2.conversation_history = none := by
  decide

/-- C5, counterexample: `selectFallback("what is this?", "group")` with
pick index 0 returns a member of the group-greeting set and not of the
group-question set, because the greeting keyword `hi` occurs inside the
word `this` under Python's substring containment. -/
theorem C5_counterexample :
    generate_smart_fallback "what is this?" "group" 0 ∈ group_greeting_responses
    ∧ generate_smart_fallback "what is this?" "group" 0 ∉ group_question_responses
    ∧ substr "hi" (lower "what is this?") = true := by
  decide

/-- C5, amended: `selectFallback("what is this?", "group")` always returns
a member of the group-greeting candidate set and never a member of the
group-question set, because greeting keywords are checked first and the
keyword `hi` matches inside `this`. -/
theorem C5_amended_greeting_set (k : Nat) :
    generate_smart_fallback "what is this?" "group" k ∈ group_greeting_responses
    ∧ generate_smart_fallback "what is this?" "group" k ∉ group_question_responses := by
  have htab : fallback_table "what is this?" "group" = group_greeting_responses := by
    decide
  have hmem := fallback_mem "what is this?" "group" k
  rw [htab] at hmem
  have hdisj : ∀ r ∈ group_greeting_responses, r ∉ group_question_responses := by
    decide
  exact ⟨hmem, hdisj _ hmem⟩

/-- C6, counterexample: on an HTTP-200 direct-object response whose
`generated_text` is exactly the input message, the client returns the
message unchanged (`some "hello"`): the verbatim occurrence of the input
is not stripped in the direct-object shape (the claim would require the
empty after-stripping text to yield no result). -/
theorem C6_counterexample :
    (try_huggingface_api initialState "hello" "u1"
        (HttpOutcome.response 200 (JsonBody.obj (JField.strVal "hello")))).1
      = some (PyReturn.str "hello")
    ∧ substr "hello" "hello" = true := by
  decide

lemma strTake_length_le (s : String) (n : Nat) : (strTake s n).length ≤ n := by
  show (s.toList.take n).length ≤ n
  rw [List.length_take]
  exact min_le_left _ _

/-- C6, amended: input-stripping, the empty-text check and the no-rotation
guarantees hold only for the single-element list-of-objects shape, where
the result is the cleaned text truncated to 200 characters or no result if
the cleaned text is empty; the direct-object shape returns the raw
generated text truncated to 200 characters without stripping, even when it
is empty. -/
theorem C6_amended_extraction (st : AIService) (m u s : String) :
    (try_huggingface_api st m u
        (HttpOutcome.response 200 (JsonBody.listWith (JField.strVal s)))).1
      = (if cleanText m s = "" then none
         else some (PyReturn.str (strTake (cleanText m s) 200)))
    ∧ (try_huggingface_api st m u
        (HttpOutcome.response 200 (JsonBody.listWith (JField.strVal s)))).2.current_endpoint
      = st.current_endpoint
    ∧ (try_huggingface_api st m u
        (HttpOutcome.response 200 (JsonBody.obj (JField.strVal s)))).1
      = some (PyReturn.str (strTake s 200))
    ∧ (strTake (cleanText m s) 200).length ≤ 200
    ∧ (strTake s 200).length ≤ 200 := by
  refine ⟨?_, ?_, rfl, strTake_length_le _ _, strTake_length_le _ _⟩
  · by_cases hg : cleanText m s = "" <;> simp [try_huggingface_api, hg]
  · by_cases hg : cleanText m s = "" <;>
      simp [try_huggingface_api, hg, record_message_cursor]

/-- C7, counterexample: the echoed substring does not preserve the
original case: for the all-caps question `WHY IS THAT?` the private
question reply embeds the lowercased text `why is that?`, and the text as
the user typed it occurs nowhere in the reply. -/
theorem C7_counterexample :
    generate_smart_fallback "WHY IS THAT?" "private" 0
      = "That's a thoughtful question about 'why is that?...' Let me think about that!"
    ∧ substr "WHY IS THAT?"
        (generate_smart_fallback "WHY IS THAT?" "private" 0) = false := by
  decide

/-- C7, amended: the fallback selector lowercases the text and uses the
lowercased form both for keyword matching and for the echoed substring:
the reply is always drawn from the table selected on the lowercased text,
and each echoing template embeds the first 30 characters of the lowercased
input, not the original case. -/
theorem C7_amended_lowercase_echo (m : String) (k : Nat) :
    generate_smart_fallback m "private" k ∈ get_private_responses (lower m)
    ∧ (private_question_responses (lower m)).getD 0 ""
        = "That's a thoughtful question about '" ++ strTake (lower m) 30
            ++ "...' Let me think about that!"
    ∧ (private_default_responses (lower m)).getD 0 ""
        = "That's really interesting what you said about '" ++ strTake (lower m) 30
            ++ "...' Tell me more!"
    ∧ (group_default_responses (lower m)).getD 0 ""
        = "Interesting point about '" ++ strTake (lower m) 30
            ++ "...' - what does everyone else think?" := by
  refine ⟨?_, rfl, rfl, rfl⟩
  have htab : fallback_table m "private" = get_private_responses (lower m) := by
    unfold fallback_table
    rw [if_neg (by decide : ¬(("private" : String) = "group"
      ∨ ("private" : String) = "supergroup"))]
  have hmem := fallback_mem m "private" k
  rwa [htab] at hmem

/-- C8: first-match-wins priority - for any message whose lowercased text
matches no greeting keyword, contains no question mark, and contains a
thanks keyword, the fallback reply in a group context is always a member
of the group-thanks set and never of the group-bot set, and likewise in a
private context; the thanks check precedes the bot-identity check. -/
theorem C8_thanks_priority (m : String) (k : Nat)
    (hg : greeting_keywords.any (fun g => substr g (lower m)) = false)
    (hq : substr "?" (lower m) = false)
    (ht : thanks_keywords.any (fun w => substr w (lower m)) = true) :
    (generate_smart_fallback m "group" k ∈ group_thanks_responses
      ∧ generate_smart_fallback m "group" k ∉ group_bot_responses)
    ∧ (generate_smart_fallback m "private" k ∈ private_thanks_responses
      ∧ generate_smart_fallback m "private" k ∉ private_bot_responses) := by
  have hgrp : fallback_table m "group" = group_thanks_responses := by
    unfold fallback_table
    rw [if_pos (Or.inl rfl)]
    unfold get_group_responses
    rw [hg, hq, ht]
    rfl
  have hpriv : fallback_table m "private" = private_thanks_responses := by
    unfold fallback_table
    rw [if_neg (by decide : ¬(("private" : String) = "group"
      ∨ ("private" : String) = "supergroup"))]
    unfold get_private_responses
    rw [hg, hq, ht]
    rfl
  have hmg := fallback_mem m "group" k
  rw [hgrp] at hmg
  have hmp := fallback_mem m "private" k
  rw [hpriv] at hmp
  have hd1 : ∀ r ∈ group_thanks_responses, r ∉ group_bot_responses := by decide
  have hd2 : ∀ r ∈ private_thanks_responses, r ∉ private_bot_responses := by decide
  exact ⟨⟨hmg, hd1 _ hmg⟩, ⟨hmp, hd2 _ hmp⟩⟩

/-- C8, witness: `thank you bot` matches no greeting keyword, has no `?`,
and matches the thanks keyword `thank`, so in both contexts the reply is a
thanks reply and not a bot-identity reply. -/
theorem C8_witness :
    (greeting_keywords.any (fun g => substr g (lower "thank you bot")) = false
      ∧ substr "?" (lower "thank you bot") = false
      ∧ thanks_keywords.any (fun w => substr w (lower "thank you bot")) = true)
    ∧ ((generate_smart_fallback "thank you bot" "group" 0 ∈ group_thanks_responses
        ∧ generate_smart_fallback "thank you bot" "group" 0 ∉ group_bot_responses)
      ∧ (generate_smart_fallback "thank you bot" "private" 0 ∈ private_thanks_responses
        ∧ generate_smart_fallback "thank you bot" "private" 0 ∉ private_bot_responses)) :=
  ⟨⟨by decide, by decide, by decide⟩,
   C8_thanks_priority "thank you bot" 0 (by decide) (by decide) (by decide)⟩

/-- C9: for every service state and user, clearing that user's history and
then querying the stats reports an active-conversation count exactly one
smaller when the user had an entry and unchanged otherwise; entries of
every other user and the endpoint cursor are untouched. -/
theorem C9_clear_then_stats (st : AIService) (u : String) :
    (st.conversation_history.any (fun p => p.1 == u) = true →
      (get_conversation_stats
          (clear_conversation_history st u)).active_conversations + 1
        = (get_conversation_stats st).active_conversations)
    ∧ (st.conversation_history.any (fun p => p.1 == u) = false →
      (get_conversation_stats
          (clear_conversation_history st u)).active_conversations
        = (get_conversation_stats st).active_conversations)
    ∧ (∀ v, v ≠ u →
        List.lookup v (clear_conversation_history st u).conversation_history
          = List.lookup v st.conversation_history)
    ∧ (clear_conversation_history st u).current_endpoint
        = st.current_endpoint := by
  refine ⟨?_, ?_, ?_, rfl⟩
  · intro h
    rcases List.any_eq_true.mp h with ⟨a, ha, hpa⟩
    show (st.conversation_history.eraseP (fun p => p.1 == u)).length + 1
      = st.conversation_history.length
    rw [List.length_eraseP_of_mem ha hpa]
    have : 1 ≤ st.conversation_history.length :=
      List.length_pos.mpr (List.ne_nil_of_mem ha)
    omega
  · intro h
    show (st.conversation_history.eraseP (fun p => p.1 == u)).length
      = st.conversation_history.length
    rw [List.eraseP_of_forall_not]
    intro a ha
    exact (List.any_eq_false.mp h) a ha
  · intro v hv
    show List.lookup v (st.conversation_history.eraseP (fun p => p.1 == u))
      = List.lookup v st.conversation_history
    induction st.conversation_history with
    | nil => rfl
    | cons a t ih =>
      by_cases h : a.1 = u
      · simp [List.eraseP_cons, h, List.lookup, beq_false_of_ne hv]
      · simp only [List.eraseP_cons, beq_false_of_ne h, cond_false]
        by_cases hva : v = a.1
        · simp [List.lookup, hva]
        · simp [List.lookup, beq_false_of_ne hva, ih]

/-- C9, witness: from the state with cursor 2 and entries for `u1` and
`u2`, clearing `u1` drops the reported count from 2 to 1, leaves `u2`'s
entry intact and keeps the cursor at 2; clearing the absent `u3` leaves
the count at 2. -/
theorem C9_witness :
    (([(("u1" : String), ["hi"]), ("u2", [])] : List (String × List String)).any
        (fun p => p.1 == "u1") = true
      ∧ (get_conversation_stats (clear_conversation_history
          { current_endpoint := 2,
            conversation_history := [("u1", ["hi"]), ("u2", [])] }
          "u1")).active_conversations + 1
        = (get_conversation_stats
          { current_endpoint := 2,
            conversation_history := [("u1", ["hi"]), ("u2", [])] }).active_conversations)
    ∧ List.lookup "u2" (clear_conversation_history
          { current_endpoint := 2,
            conversation_history := [("u1", ["hi"]), ("u2", [])] }
          "u1").conversation_history = some []
    ∧ (clear_conversation_history
          { current_endpoint := 2,
            conversation_history := [("u1", ["hi"]), ("u2", [])] }
          "u1").current_endpoint = 2
    ∧ (([(("u1" : String), ["hi"]), ("u2", [])] : List (String × List String)).any
        (fun p => p.1 == "u3") = false
      ∧ (get_conversation_stats (clear_conversation_history
          { current_endpoint := 2,
            conversation_history := [("u1", ["hi"]), ("u2", [])] }
          "u3")).active_conversations
        = (get_conversation_stats
          { current_endpoint := 2,
            conversation_history := [("u1", ["hi"]), ("u2", [])] }).active_conversations) :=
  ⟨⟨by decide, (C9_clear_then_stats _ "u1").1 (by decide)⟩,
   by
     have := (C9_clear_then_stats
       { current_endpoint := 2,
         conversation_history := [("u1", ["hi"]), ("u2", [])] } "u1").2.2.1
       "u2" (by decide)
     rw [this]
     decide,
   (C9_clear_then_stats _ "u1").2.2.2,
   ⟨by decide, (C9_clear_then_stats _ "u3").2.1 (by decide)⟩⟩

/-- C10: starting from a freshly constructed service, no sequence of
public operations ever adds an entry to the conversation log - the list
built in the DialoGPT payload branch is local and never stored back - so
the reported active-conversation count is invariantly 0. -/
theorem C10_history_invariant (ops : List Op) :
    (runOps initialState ops).conversation_history = []
    ∧ (get_conversation_stats (runOps initialState ops)).active_conversations = 0 := by
  have h := runOps_history_empty ops initialState rfl
  refine ⟨h, ?_⟩
  show (runOps initialState ops).conversation_history.length = 0
  rw [h]
  rfl
